import Mathlib

/-!
Verification of the scenario-generation / selector-repair / code-generation
pipeline of the taas repository.

The TypeScript sources are shallowly embedded as pure Lean functions.
External effects (the Gemini HTTP call, the MCP automation backend, the
clock, `JSON.parse` on backend reply text) are modelled as explicit
parameters: a call to the automation backend consumes one slot of an
outcome environment, so an arbitrary sequence of backend behaviours
(success, reported failure, thrown exception) is a plain function
`Nat -> CallOutcome`.
-/

/-- JavaScript string truthiness: `undefined`/`null` and `""` are falsy. -/
def jsStrTruthy : Option String → Bool
  | none => false
  | some s => s != ""

/-- `x || d` on an optional string, as JavaScript evaluates it
(the default is taken when `x` is absent or the empty string). -/
def jsOrStr : Option String → String → String
  | none, d => d
  | some s, d => if s == "" then d else s

/-- ASCII letter or digit, the character class `[a-zA-Z0-9]`. -/
def isAsciiAlphanum (c : Char) : Bool :=
  ('a' ≤ c && c ≤ 'z') || ('A' ≤ c && c ≤ 'Z') || ('0' ≤ c && c ≤ '9')

/-- The JavaScript regex class `\s` (ASCII whitespace plus the Unicode
space separators, line/paragraph separators, NBSP, and the BOM). -/
def jsWhitespace (c : Char) : Bool :=
  c == ' ' || c == '\t' || c == '\n' || c == '\r' || c.val == 0x0b || c.val == 0x0c ||
  c.val == 0xa0 || c.val == 0x1680 || (0x2000 ≤ c.val && c.val ≤ 0x200a) ||
  c.val == 0x2028 || c.val == 0x2029 || c.val == 0x202f || c.val == 0x205f ||
  c.val == 0x3000 || c.val == 0xfeff

/-- `.replace(/\s+/g, ' ')`: each maximal run of whitespace becomes one
space.  The boolean records whether the previous kept character position
was inside a whitespace run. -/
def collapseWsAux : Bool → List Char → List Char
  | _, [] => []
  | prevWs, c :: rest =>
    if jsWhitespace c then
      if prevWs then collapseWsAux true rest
      else ' ' :: collapseWsAux true rest
    else c :: collapseWsAux false rest

/-- `name.replace(/[^a-zA-Z0-9\s]/g, '').replace(/\s+/g, ' ')`, the test
title sanitiser shared by both Playwright code generators. -/
def sanitizeName (s : String) : String :=
  String.mk (collapseWsAux false (s.data.filter fun c => isAsciiAlphanum c || jsWhitespace c))

/-- Prefix test on character lists. -/
def isPrefixCL : List Char → List Char → Bool
  | [], _ => true
  | _ :: _, [] => false
  | a :: as, b :: bs => a == b && isPrefixCL as bs

/-- Substring search on character lists, `String.prototype.includes`. -/
def containsCL (pat : List Char) : List Char → Bool
  | [] => isPrefixCL pat []
  | c :: rest => isPrefixCL pat (c :: rest) || containsCL pat rest

/-- `s.includes(pat)`. -/
def jsIncludes (s pat : String) : Bool := containsCL pat.data s.data

/-- `s.startsWith(pat)`. -/
def jsStartsWith (s pat : String) : Bool := isPrefixCL pat.data s.data

/-- Replace the first occurrence of `pat` (a plain string, as in
`s.replace('text=', '')`) by `repl`; the source is unchanged when `pat`
does not occur. -/
def replaceFirstCL (pat repl : List Char) : List Char → List Char
  | [] => []
  | c :: rest =>
    if isPrefixCL pat (c :: rest) then repl ++ (c :: rest).drop pat.length
    else c :: replaceFirstCL pat repl rest

/-- `s.replace(pat, repl)` for a plain-string pattern. -/
def jsReplaceFirst (s pat repl : String) : String :=
  String.mk (replaceFirstCL pat.data repl.data s.data)

/-- Case-insensitive literal-prefix strip, `d.replace(/^pre /i, '')`. -/
def stripPrefixCI (pre s : String) : String :=
  if pre.data.length ≤ s.data.length &&
      (s.data.take pre.data.length).map Char.toLower == pre.data.map Char.toLower
  then String.mk (s.data.drop pre.data.length)
  else s

/-! ## Scenario IR (packages/compiler-core, `TestStep` / `TestScenario`) -/

/-- One step of a scenario, `TestStep` of the compiler core.  `action` is a
plain string at runtime: the TypeScript union type is not enforced when the
value crosses from parsed JSON. -/
structure TestStep where
  action : String
  target : String
  data : Option String
  description : String
deriving DecidableEq, Repr

/-- A scenario, `TestScenario` of the compiler core. -/
structure TestScenario where
  id : String
  name : String
  steps : List TestStep
  timeTakenToCompile : Option String
  tags : Option (List String)
deriving DecidableEq, Repr

/-- The recognised step actions of the Scenario IR. -/
def recognizedActions : List String :=
  ["goto", "fill", "click", "expect", "wait", "type", "select", "hover"]

/-! ## Automation session (`MCPClient`)

The backend is external: one tool call either throws or yields a reply.
`MCPClient.validateSelector` inspects the reply's first content entry and
runs `JSON.parse` on its text; the parse outcome is supplied as a function
`jsonParse`, the only two observations the code makes of the parsed object
being its `improvedSelector` and `executionTime` fields. -/

/-- The result record `MCPExecutionResult` of `mcp-client.ts`. -/
structure MCPExecutionResult where
  success : Bool
  improvedSelector : Option String
  error : Option String
  executionTime : Option Nat
deriving DecidableEq, Repr

/-- One entry of an MCP tool reply's `content` array. -/
inductive ToolContent where
  | text (s : String)
  | other
deriving DecidableEq, Repr

/-- Outcome of one `client.callTool` invocation: a thrown exception or a
reply carrying a content array. -/
inductive ToolCallOutcome where
  | thrown (msg : String)
  | reply (content : List ToolContent)
deriving DecidableEq, Repr

/-- The two fields `validateSelector` reads from a JSON-parsed reply. -/
structure ParsedSelectorReply where
  improvedSelector : Option String
  executionTime : Option Nat
deriving DecidableEq, Repr

/-- `MCPClient.validateSelector` (mcp-client.ts:86-130).  When not
connected it fails; a thrown tool call is caught and reported as failure;
otherwise the reply's first text content is JSON-parsed, a parsed
`improvedSelector` (or, when falsy, the input selector) is returned, a
non-parseable text is returned verbatim as the improved selector, and a
missing or non-text content echoes the input selector. -/
def MCPClient.validateSelector (jsonParse : String → Option ParsedSelectorReply)
    (isConnected : Bool) (selector : String) (outcome : ToolCallOutcome) :
    MCPExecutionResult :=
  if !isConnected then
    { success := false, improvedSelector := none,
      error := some "Not connected to MCP server", executionTime := none }
  else
    match outcome with
    | .thrown m =>
      { success := false, improvedSelector := none, error := some m, executionTime := none }
    | .reply content =>
      match content.head? with
      | some (.text t) =>
        match jsonParse t with
        | some parsed =>
          { success := true,
            improvedSelector := some (jsOrStr parsed.improvedSelector selector),
            error := none,
            executionTime := some (parsed.executionTime.getD 0) }
        | none =>
          { success := true, improvedSelector := some t, error := none,
            executionTime := some 0 }
      | _ =>
        { success := true, improvedSelector := some selector, error := none,
          executionTime := some 0 }

/-! ## Selector-repair orchestration (`LLMCompiler`, src/unnamed/part_001)

`executeStepWithMCP` issues at most two backend calls per step.  The
backend's behaviour over a scenario run is an environment
`env : Nat → CallOutcome`; each call consumes the next slot, so the model
quantifies over every possible sequence of backend replies and thrown
exceptions.  The `try`/`catch` of the source is mirrored exactly: a thrown
call makes the step fall back to its original `target` and `description`. -/

/-- Outcome of one `mcpClient.executeStep`/`validateSelector` call as seen
by `LLMCompiler`: the promise rejects, or resolves to a result record. -/
inductive CallOutcome where
  | thrown (msg : String)
  | ok (r : MCPExecutionResult)
deriving DecidableEq, Repr

/-- `description.replace(/^click on /i, '').replace(/^click /i, '')`. -/
def stripClickDesc (d : String) : String :=
  stripPrefixCI "click " (stripPrefixCI "click on " d)

/-- `description.replace(/^enter /i, '').replace(/^fill /i, '')`. -/
def stripFillDesc (d : String) : String :=
  stripPrefixCI "fill " (stripPrefixCI "enter " d)

/-- `LLMCompiler.executeStepWithMCP` (part_001:242-338).  Returns the
repaired step together with the index of the next unconsumed call slot.
The spread `{...step, target, description}` keeps `action` and `data`. -/
def executeStepWithMCP (env : Nat → CallOutcome) (k : Nat) (url : String)
    (isFirstStep : Bool) (step : TestStep) : TestStep × Nat :=
  if isFirstStep && step.action == "goto" then
    match env k with
    | .thrown _ => (step, k + 1)
    | .ok r =>
      ({ step with
         description := if r.success then "Successfully navigated to " ++ url
                        else step.description }, k + 1)
  else if step.action == "click" || step.action == "fill" || step.action == "expect" then
    match env k with
    | .thrown _ => (step, k + 1)
    | .ok v =>
      let improvedTarget :=
        if v.success && jsStrTruthy v.improvedSelector then v.improvedSelector.getD step.target
        else step.target
      match env (k + 1) with
      | .thrown _ => (step, k + 2)
      | .ok e =>
        if e.success then
          let d :=
            if step.action == "click" then
              "Successfully clicked on \"" ++ stripClickDesc step.description ++
                "\" (validated selector: " ++ improvedTarget ++ ")"
            else if step.action == "fill" then
              "Successfully filled \"" ++ stripFillDesc step.description ++
                "\" field (validated selector: " ++ improvedTarget ++ ")"
            else
              "Successfully verified element exists (validated selector: " ++
                improvedTarget ++ ")"
          ({ step with target := improvedTarget, description := d }, k + 2)
        else
          ({ step with target := improvedTarget, description := step.description }, k + 2)
  else if step.action == "wait" then
    if step.target != "#body" then
      match env k with
      | .thrown _ => (step, k + 1)
      | .ok v =>
        let improvedTarget :=
          if v.success && jsStrTruthy v.improvedSelector then v.improvedSelector.getD step.target
          else step.target
        match env (k + 1) with
        | .thrown _ => (step, k + 2)
        | .ok r =>
          let d := if r.success then
              "Successfully waited for element (validated selector: " ++
                improvedTarget ++ ")"
            else step.description
          ({ step with target := improvedTarget, description := d }, k + 2)
    else
      match env k with
      | .thrown _ => (step, k + 1)
      | .ok r =>
        ({ step with
           description := if r.success then
               "Successfully waited for element (validated selector: " ++
                 step.target ++ ")"
             else step.description }, k + 1)
  else if step.action == "type" then
    match env k with
    | .thrown _ => (step, k + 1)
    | .ok v =>
      let improvedTarget :=
        if v.success && jsStrTruthy v.improvedSelector then v.improvedSelector.getD step.target
        else step.target
      match env (k + 1) with
      | .thrown _ => (step, k + 2)
      | .ok r =>
        let d := if r.success then
            "Successfully typed text (validated selector: " ++ improvedTarget ++ ")"
          else step.description
        ({ step with target := improvedTarget, description := d }, k + 2)
  else
    (step, k)

/-- The step loop of `LLMCompiler.executeScenarioWithMCP` (part_001:215-240):
steps are processed strictly in order, `i = 0` marks the first step, and
each repaired step is appended to the output list. -/
def executeStepsWithMCP (env : Nat → CallOutcome) (url : String) :
    Nat → Nat → List TestStep → List TestStep × Nat
  | k, _, [] => ([], k)
  | k, i, step :: rest =>
    let (s, k1) := executeStepWithMCP env k url (i == 0) step
    let (ss, k2) := executeStepsWithMCP env url k1 (i + 1) rest
    (s :: ss, k2)

/-- `LLMCompiler.executeScenarioWithMCP`: run all steps from slot 0. -/
def executeScenarioWithMCP (env : Nat → CallOutcome) (url : String)
    (steps : List TestStep) : List TestStep :=
  (executeStepsWithMCP env url 0 0 steps).1

/-- `LLMCompiler.validateSelectorsWithMCP` (part_001:184-213): one
independent backend-call environment per scenario (`Promise.all` gives each
scenario its own call sequence), each scenario keeps its identity and gets
repaired steps and a measured compile time. -/
def validateSelectorsWithMCP (envs : Nat → Nat → CallOutcome)
    (times : Nat → String) (url : String) (scenarios : List TestScenario) :
    List TestScenario :=
  scenarios.mapIdx fun i scn =>
    { scn with
      steps := executeScenarioWithMCP (envs i) url scn.steps,
      timeTakenToCompile := some (times i) }

/-! ## Scenario generation (`GeminiService`, `LLMCompiler.generateGeminiScenarios`)

The outbound HTTP call is modelled by its observable outcome: the fetch
promise rejects (transport failure), or a response arrives with an `ok`
flag and a body whose JSON decoding may fail.  `parseGeminiResponse` is
string surgery plus `JSON.parse`; what `generateGeminiScenarios` observes
of it is supplied as a `parse` function returning either an error or the
parsed object's `scenarios` field. -/

/-- A Gemini API response body: each candidate is the list of its
`content.parts` texts. -/
structure GeminiResponse where
  candidates : List (List String)
deriving DecidableEq, Repr

/-- Observable outcome of the `fetch` call in
`GeminiService.generateTestScenarios`. -/
inductive FetchOutcome where
  | reject (msg : String)
  | resp (ok : Bool) (statusMsg : String) (body : Option GeminiResponse)
deriving DecidableEq, Repr

/-- `GeminiService.generateTestScenarios` (gemini-service.ts:41-93): a
transport rejection, a non-ok HTTP status, an undecodable body, an empty
candidate list, or a candidate without parts all end in a thrown error
(re-thrown by the final `catch`); otherwise the first candidate's first
part text is returned. -/
def GeminiService.generateTestScenarios (outcome : FetchOutcome) : Except String String :=
  match outcome with
  | .reject m => .error m
  | .resp ok statusMsg body =>
    if !ok then .error ("Gemini API error: " ++ statusMsg)
    else
      match body with
      | none => .error "invalid json body"
      | some data =>
        match data.candidates.head? with
        | none => .error "No response from Gemini API"
        | some parts =>
          match parts.head? with
          | none => .error "Cannot read properties of undefined"
          | some t => .ok t

/-- A step as it appears in the parsed `scenarios` JSON array: every field
may be absent. -/
structure RawStep where
  action : Option String
  target : Option String
  data : Option String
  description : Option String
deriving DecidableEq, Repr

/-- A scenario object of the parsed `scenarios` JSON array. -/
structure RawScenario where
  id : Option String
  name : Option String
  steps : Option (List RawStep)
  tags : Option (List String)
deriving DecidableEq, Repr

/-- What `generateGeminiScenarios` reads from `parseGeminiResponse`'s
result: the `scenarios` field, `none` when absent or not an array. -/
structure ParsedScenarios where
  scenarios : Option (List RawScenario)
deriving DecidableEq, Repr

/-- The per-scenario conversion of part_001:361-371: `||`-defaulting of
`id`, `name`, step `action`, step `target` and step `description`; `data`
copied as-is; missing `tags` defaults to `["generated"]` (an empty tags
array is truthy in JavaScript and is kept). -/
def convertRawScenario (i : Nat) (s : RawScenario) (steps : List RawStep) : TestScenario :=
  { id := jsOrStr s.id ("scn_" ++ toString (i + 1)),
    name := jsOrStr s.name ("Generated Scenario " ++ toString (i + 1)),
    steps := steps.mapIdx fun j st =>
      { action := jsOrStr st.action "click",
        target := jsOrStr st.target "#body",
        data := st.data,
        description := jsOrStr st.description ("Step " ++ toString (j + 1)) },
    timeTakenToCompile := none,
    tags := some (s.tags.getD ["generated"]) }

/-- `LLMCompiler.generateGeminiScenarios` (part_001:340-384).  The result
type keeps an error channel so that propagation of a failure to the caller
is expressible, but everything runs inside one `try`: a service error, a
parse error, a missing or non-array `scenarios` field, or a scenario
without a `steps` array (whose `.map` would throw a TypeError) all fall
into the `catch`, which returns the empty list. -/
def generateGeminiScenarios (serviceOutcome : FetchOutcome)
    (parse : String → Except String ParsedScenarios) :
    Except String (List TestScenario) :=
  match GeminiService.generateTestScenarios serviceOutcome with
  | .error _ => .ok []
  | .ok text =>
    match parse text with
    | .error _ => .ok []
    | .ok p =>
      match p.scenarios with
      | none => .ok []
      | some raw =>
        if raw.all (fun s => s.steps.isSome) then
          .ok (raw.mapIdx fun i s => convertRawScenario i s (s.steps.getD []))
        else .ok []

/-! ## Regex fragments of the code generators

`target.match(/role=([^[\]]+)(?:\[([^\]]+)\])?/)`,
`g2.replace(/name=['"]([^'"]+)['"]/, '$1')` and
`data.match(/contains '([^']+)'/)` are the only regular expressions the
generators use; each is implemented as a left-to-right scan, which is what
the (backtracking-free, all character classes being complements of the
following delimiter) regexes compute. -/

/-- Try `role=([^[\]]+)(?:\[([^\]]+)\])?` anchored at the start of `s`:
group 1 is a nonempty bracket-free run after `role=`, group 2 the bracketed
payload when a complete `[...]` with nonempty body follows. -/
def tryRoleAt (s : List Char) : Option (List Char × Option (List Char)) :=
  if isPrefixCL "role=".data s then
    let rest := s.drop 5
    let g1 := rest.takeWhile fun c => c != '[' && c != ']'
    if g1.isEmpty then none
    else
      match rest.drop g1.length with
      | '[' :: r3 =>
        let inner := r3.takeWhile fun c => c != ']'
        if !inner.isEmpty && (r3.drop inner.length).head? == some ']' then
          some (g1, some inner)
        else some (g1, none)
      | _ => some (g1, none)
  else none

/-- `s.match(/role=([^[\]]+)(?:\[([^\]]+)\])?/)`: first position where the
pattern matches. -/
def matchRole : List Char → Option (List Char × Option (List Char))
  | [] => none
  | c :: rest =>
    match tryRoleAt (c :: rest) with
    | some m => some m
    | none => matchRole rest

/-- Try `name=['"]([^'"]+)['"]` anchored at the start of `s`; on success
returns the capture and the total matched length. -/
def tryNameAt (s : List Char) : Option (List Char × Nat) :=
  if isPrefixCL "name=".data s then
    match s.drop 5 with
    | q :: r2 =>
      if q == '\'' || q == '"' then
        let cap := r2.takeWhile fun c => c != '\'' && c != '"'
        if cap.isEmpty then none
        else
          match (r2.drop cap.length).head? with
          | some q2 => if q2 == '\'' || q2 == '"' then some (cap, 5 + 1 + cap.length + 1) else none
          | none => none
      else none
    | [] => none
  else none

/-- `s.replace(/name=['"]([^'"]+)['"]/, '$1')`: the first match is replaced
by its capture, everything else is kept. -/
def replaceNameOnce : List Char → List Char
  | [] => []
  | c :: rest =>
    match tryNameAt (c :: rest) with
    | some (cap, len) => cap ++ (c :: rest).drop len
    | none => c :: replaceNameOnce rest

/-- Try `contains '([^']+)'` anchored at the start of `s`. -/
def tryContainsAt (s : List Char) : Option (List Char) :=
  if isPrefixCL "contains '".data s then
    let rest := s.drop 10
    let cap := rest.takeWhile fun c => c != '\''
    if !cap.isEmpty && (rest.drop cap.length).head? == some '\'' then some cap
    else none
  else none

/-- `data.match(/contains '([^']+)'/)`: the first matching position's
capture. -/
def matchContains : List Char → Option (List Char)
  | [] => none
  | c :: rest =>
    match tryContainsAt (c :: rest) with
    | some cap => some cap
    | none => matchContains rest

/-! ## Code generators

Two `generatePlaywrightTest` functions exist in the repository: the one in
the combined API server (src/unnamed/part_002:69-154) and the one in the
simple API server (src/unnamed/part_003:32-119).  Both are embedded.
Options carry the zod-validated `options` object of the compile request. -/

/-- The compile options object (part_003's `CompilationRequestSchema`),
after zod has applied its defaults. -/
structure CompileOptions where
  emitPageObjects : Bool
  selectorStrategy : String
  fileName : String
  suiteId : String
  runId : Option String
deriving DecidableEq, Repr

/-- The role-based locator text shared by both generators: group 2, when
present, is stripped of its `name=...` dressing and used as the accessible
name. -/
def roleName (g2 : Option (List Char)) : Option String :=
  g2.map fun inner => String.mk (replaceNameOnce inner)

/-- The `expect` case shared by both generators (identical text in
part_002:127-141 and part_003:88-102). -/
def expectStepCode (step : TestStep) : String :=
  if jsStrTruthy step.data && jsIncludes (step.data.getD "") "visible" then
    "  await expect(page.locator('" ++ step.target ++ "')).toBeVisible();\n"
  else if jsStrTruthy step.data && jsIncludes (step.data.getD "") "text" then
    match matchContains (step.data.getD "").data with
    | some cap =>
      "  await expect(page.locator('" ++ step.target ++ "')).toContainText('" ++
        String.mk cap ++ "');\n"
    | none => "  await expect(page.locator('" ++ step.target ++ "')).toBeVisible();\n"
  else
    "  await expect(page.locator('" ++ step.target ++ "')).toBeVisible();\n"

/-- One step's emitted block in the simple API's generator
(part_003:41-110), comment line included. -/
def SimpleApi.stepCode (options : CompileOptions) (step : TestStep) : String :=
  if step.action == "goto" then
    "  // Navigate to the page\n" ++
    "  await page.goto('" ++ step.target ++ "');\n"
  else if step.action == "click" then
    "  // Click on element\n" ++
    (if options.selectorStrategy == "role-first" && jsStartsWith step.target "role=" then
      match matchRole step.target.data with
      | some (g1, g2) =>
        match roleName g2 with
        | some n =>
          if n != "" then
            "  await page.getByRole('" ++ String.mk g1 ++ "', \x7b name: '" ++ n ++
              "' \x7d).click();\n"
          else "  await page.getByRole('" ++ String.mk g1 ++ "').click();\n"
        | none => "  await page.getByRole('" ++ String.mk g1 ++ "').click();\n"
      | none => "  await page.locator('" ++ step.target ++ "').click();\n"
    else if jsStartsWith step.target "text=" then
      "  await page.getByText('" ++ jsReplaceFirst step.target "text=" "" ++ "').click();\n"
    else "  await page.locator('" ++ step.target ++ "').click();\n")
  else if step.action == "fill" || step.action == "type" then
    "  // Fill input field\n" ++
    (if options.selectorStrategy == "role-first" && jsStartsWith step.target "role=" then
      match matchRole step.target.data with
      | some (g1, g2) =>
        match roleName g2 with
        | some n =>
          if n != "" then
            "  await page.getByRole('" ++ String.mk g1 ++ "', \x7b name: '" ++ n ++
              "' \x7d).fill('" ++ step.data.getD "" ++ "');\n"
          else "  await page.locator('" ++ step.target ++ "').fill('" ++
            step.data.getD "" ++ "');\n"
        | none => "  await page.locator('" ++ step.target ++ "').fill('" ++
            step.data.getD "" ++ "');\n"
      | none => "  await page.locator('" ++ step.target ++ "').fill('" ++
          step.data.getD "" ++ "');\n"
    else "  await page.locator('" ++ step.target ++ "').fill('" ++
        step.data.getD "" ++ "');\n")
  else if step.action == "expect" then
    "  // Verify element\n" ++ expectStepCode step
  else if step.action == "wait" then
    "  // Wait for element\n" ++
    "  await page.waitForSelector('" ++ step.target ++ "');\n"
  else
    "  // " ++ step.action ++ ": " ++ step.description ++ "\n" ++
    "  await page.locator('" ++ step.target ++ "')." ++ step.action ++ "();\n"

/-- One step's emitted block in the combined API's generator
(part_002:78-145).  Its `fill` case resolves roles like the click case but
has no `text=` branch, it has no `wait` or `type` case, and its default
case emits two comment lines and no call statement. -/
def CombinedApi.stepCode (options : CompileOptions) (step : TestStep) : String :=
  if step.action == "goto" then
    "  // Navigate to the page\n" ++
    "  await page.goto('" ++ step.target ++ "');\n"
  else if step.action == "fill" then
    "  // Fill input field\n" ++
    (if options.selectorStrategy == "role-first" && jsStartsWith step.target "role=" then
      match matchRole step.target.data with
      | some (g1, g2) =>
        match roleName g2 with
        | some n =>
          if n != "" then
            "  await page.getByRole('" ++ String.mk g1 ++ "', \x7b name: '" ++ n ++
              "' \x7d).fill('" ++ step.data.getD "" ++ "');\n"
          else "  await page.getByRole('" ++ String.mk g1 ++ "').fill('" ++
            step.data.getD "" ++ "');\n"
        | none => "  await page.getByRole('" ++ String.mk g1 ++ "').fill('" ++
            step.data.getD "" ++ "');\n"
      | none => "  await page.locator('" ++ step.target ++ "').fill('" ++
          step.data.getD "" ++ "');\n"
    else "  await page.locator('" ++ step.target ++ "').fill('" ++
        step.data.getD "" ++ "');\n")
  else if step.action == "click" then
    "  // Click on element\n" ++
    (if options.selectorStrategy == "role-first" && jsStartsWith step.target "role=" then
      match matchRole step.target.data with
      | some (g1, g2) =>
        match roleName g2 with
        | some n =>
          if n != "" then
            "  await page.getByRole('" ++ String.mk g1 ++ "', \x7b name: '" ++ n ++
              "' \x7d).click();\n"
          else "  await page.getByRole('" ++ String.mk g1 ++ "').click();\n"
        | none => "  await page.getByRole('" ++ String.mk g1 ++ "').click();\n"
      | none =>
        if jsStartsWith step.target "text=" then
          "  await page.getByText('" ++ jsReplaceFirst step.target "text=" "" ++
            "').click();\n"
        else "  await page.locator('" ++ step.target ++ "').click();\n"
    else if jsStartsWith step.target "text=" then
      "  await page.getByText('" ++ jsReplaceFirst step.target "text=" "" ++ "').click();\n"
    else "  await page.locator('" ++ step.target ++ "').click();\n")
  else if step.action == "expect" then
    "  // Verify element\n" ++ expectStepCode step
  else
    "  // Unknown action: " ++ step.action ++ "\n" ++
    "  // " ++ step.description ++ "\n"

/-- The header both generators emit before the step blocks. -/
def testHeader (scenarioName : String) : String :=
  "import \x7b test, expect \x7d from '@playwright/test';\n\n" ++
  "test('" ++ sanitizeName scenarioName ++ "', async (\x7b page \x7d) => \x7b\n"

/-- The footer both generators emit after the step blocks. -/
def testFooter : String := "\x7d);\n"

/-- One step block plus the blank separator line the `forEach` adds after
every step but the last. -/
def blockWithSep (code : TestStep → String) (total : Nat) (p : Nat × TestStep) : String :=
  code p.2 ++ (if p.1 < total - 1 then "\n" else "")

/-- `generatePlaywrightTest` of the simple API server (part_003:32-119):
the `testCode +=` accumulation is a left fold over the enumerated steps. -/
def SimpleApi.generatePlaywrightTest (scenario : TestScenario) (options : CompileOptions) :
    String :=
  (scenario.steps.enum.foldl
    (fun acc p => acc ++ blockWithSep (SimpleApi.stepCode options) scenario.steps.length p)
    (testHeader scenario.name)) ++ testFooter

/-- `generatePlaywrightTest` of the combined API server (part_002:69-154). -/
def CombinedApi.generatePlaywrightTest (scenario : TestScenario) (options : CompileOptions) :
    String :=
  (scenario.steps.enum.foldl
    (fun acc p => acc ++ blockWithSep (CombinedApi.stepCode options) scenario.steps.length p)
    (testHeader scenario.name)) ++ testFooter

/-! ## The compile endpoint of the simple API server (part_003:269-320) -/

/-- The page-name bucket a `goto` target falls into
(part_002:157-177 and part_003:122-142, identical). -/
def pageNameOf (url : String) : String :=
  if jsIncludes url "amazon" then "Amazon"
  else if jsIncludes url "shop" then "Shop"
  else if jsIncludes url "login" then "Login"
  else "Main"

/-- `Set.add` with JavaScript's insertion-order iteration. -/
def insertUnique (l : List String) (x : String) : List String :=
  if x ∈ l then l else l ++ [x]

/-- `generatePageObjects`: one suggested page-object path per distinct
page name of the scenario's `goto` steps, in first-appearance order. -/
def generatePageObjects (scenario : TestScenario) : List String :=
  (((scenario.steps.filter fun st => st.action == "goto").foldl
      (fun acc st => insertUnique acc (pageNameOf st.target)) []).map
    fun n => "pages/" ++ n ++ "Page.ts")

/-- One step of the compile endpoint's returned IR. -/
structure IRStep where
  type : String
  url : Option String
  selector : Option String
  value : Option String
deriving DecidableEq, Repr

/-- The artifacts object of the compile endpoint's response. -/
structure CompileArtifacts where
  testFileName : String
  pageObjects : List String
  ts : String
deriving DecidableEq, Repr

/-- The compile endpoint's response. -/
structure CompileResult where
  runId : String
  suiteId : String
  caseId : String
  caseName : String
  irSteps : List IRStep
  artifacts : CompileArtifacts
deriving DecidableEq, Repr

/-- The `/api/v1/compile` handler body (part_003:269-320) after zod
validation.  The clock read `Date.now()` is the parameter `now`; it is the
only ambient input of the handler. -/
def compileEndpoint (scenario : TestScenario) (options : CompileOptions)
    (now : Nat) : CompileResult :=
  { runId := jsOrStr options.runId ("run_" ++ toString now),
    suiteId := options.suiteId,
    caseId := "case_" ++ scenario.id,
    caseName := scenario.name,
    irSteps := scenario.steps.map fun st =>
      { type := st.action,
        url := if st.action == "goto" then some st.target else none,
        selector := if st.action != "goto" then some st.target else none,
        value := st.data },
    artifacts :=
      { testFileName := options.fileName,
        pageObjects := if options.emitPageObjects then generatePageObjects scenario else [],
        ts := SimpleApi.generatePlaywrightTest scenario options } }

/-! ## Auxiliary notions used by the statements -/

/-- Concatenation of the per-step emitted blocks, in list order. -/
def concatBlocks (f : Nat × TestStep → String) : List (Nat × TestStep) → String
  | [] => ""
  | p :: rest => f p ++ concatBlocks f rest

/-- The remainder of `s` after the first occurrence of `pat`, when `pat`
occurs. -/
def afterFirstCL (pat : List Char) : List Char → Option (List Char)
  | [] => if isPrefixCL pat [] then some [] else none
  | c :: rest =>
    if isPrefixCL pat (c :: rest) then some ((c :: rest).drop pat.length)
    else afterFirstCL pat rest

/-- Every pattern occurs in `s`, in the given order, each match starting
after the previous match's end. -/
def appearsInOrderCL : List Char → List String → Bool
  | _, [] => true
  | s, p :: ps =>
    match afterFirstCL p.data s with
    | some rest => appearsInOrderCL rest ps
    | none => false

/-- An adopted selector improvement: the validation result reports success
and offers a truthy `improvedSelector` (part_001:269). -/
def adoptsImprovement (v : MCPExecutionResult) : Bool :=
  v.success && jsStrTruthy v.improvedSelector

/-! ## Concrete inputs used by counterexamples and witnesses -/

/-- The round-trip scenario of the spec's testable properties:
goto, click `#login`, fill `#user` with `bob`, expect `#welcome` visible. -/
def roundTripScenario : TestScenario :=
  { id := "scn_rt",
    name := "Round trip",
    steps :=
      [{ action := "goto", target := "https://x.test", data := none,
         description := "Navigate to the site" },
       { action := "click", target := "#login", data := none,
         description := "Click on login" },
       { action := "fill", target := "#user", data := some "bob",
         description := "Enter username" },
       { action := "expect", target := "#welcome", data := some "visible",
         description := "Verify welcome message" }],
    timeTakenToCompile := none,
    tags := some ["smoke"] }

/-- Compile options with the raw-selector strategy. -/
def cssOptions : CompileOptions :=
  { emitPageObjects := true, selectorStrategy := "css",
    fileName := "generated_test.spec.ts", suiteId := "suite_generated", runId := none }

/-- A `fill` step before repair. -/
def fillStep : TestStep :=
  { action := "fill", target := "#user", data := some "bob",
    description := "enter username" }

/-- Backend behaviour for the C2 counterexample: the validation call
succeeds and offers an improvement, the execution call reports failure. -/
def improveThenFailEnv : Nat → CallOutcome := fun k =>
  if k == 0 then
    .ok { success := true, improvedSelector := some "[data-testid=user]",
          error := none, executionTime := some 5 }
  else
    .ok { success := false, improvedSelector := none,
          error := some "element not found", executionTime := none }

/-- Backend behaviour where every call reports failure without throwing. -/
def allFailEnv : Nat → CallOutcome := fun _ =>
  .ok { success := false, improvedSelector := none,
        error := some "element not found", executionTime := none }

/-- Backend behaviour where every call succeeds with an improvement. -/
def allImproveEnv : Nat → CallOutcome := fun _ =>
  .ok { success := true, improvedSelector := some "#better",
        error := none, executionTime := some 1 }

/-- A successful fetch outcome whose single candidate part is `text`. -/
def okFetch (text : String) : FetchOutcome :=
  .resp true "200" (some { candidates := [[text]] })

/-- A parse behaviour returning one scenario whose step action is the
unrecognised string `navigate` (as the combined API's own mock Gemini
reply does, part_002:244). -/
def navigateParse : String → Except String ParsedScenarios := fun _ =>
  .ok { scenarios := some [
    { id := some "scn_1", name := some "Nav",
       steps := some
         [{ action := some "navigate", target := some "https://example.com",
            data := none, description := some "Navigate to the website" }],
       tags := none }] }

/-- A parsed `scenarios` array with one scenario whose steps carry a
recognised action and a missing action (defaulted to `click`). -/
def recognisedRaw : List RawScenario :=
  [{ id := some "scn_1", name := some "Login",
     steps := some
       [{ action := some "goto", target := some "https://x.test",
          data := none, description := some "open" },
        { action := none, target := some "#login",
          data := none, description := some "click login" }],
     tags := some ["auth"] }]

/-- A parse behaviour returning one scenario with recognised actions only. -/
def recognisedParse : String → Except String ParsedScenarios := fun _ =>
  .ok { scenarios := some recognisedRaw }

/-- A JSON-parse behaviour for the C4 counterexample: the backend's reply
text `{"valid": true}` parses, and the parsed object has no
`improvedSelector` field. -/
def noImprovementJsonParse : String → Option ParsedSelectorReply := fun t =>
  if t == "\x7b\"valid\": true\x7d" then
    some { improvedSelector := none, executionTime := none }
  else none

/-- A JSON-parse behaviour under which no reply text is parseable. -/
def neverParses : String → Option ParsedSelectorReply := fun _ => none

/-- A step whose action is outside both generators' handled kinds. -/
def hoverStep : TestStep :=
  { action := "hover", target := "#menu", data := none,
    description := "hover over the menu" }

/-- A one-step scenario around `hoverStep`. -/
def hoverScenario : TestScenario :=
  { id := "scn_h", name := "Hover menu", steps := [hoverStep],
    timeTakenToCompile := none, tags := none }

/-! ## Structural lemmas -/

/-- The `testCode +=` accumulation over the step list is the initial
string followed by the per-step blocks in list order. -/
theorem foldl_append_concatBlocks (f : Nat × TestStep → String) :
    ∀ (l : List (Nat × TestStep)) (init : String),
      l.foldl (fun acc p => acc ++ f p) init = init ++ concatBlocks f l
  | [], init => by simp [concatBlocks, String.append_empty]
  | p :: rest, init => by
    simp only [List.foldl_cons, concatBlocks]
    rw [foldl_append_concatBlocks f rest (init ++ f p), String.append_assoc]

/-- The simple API's generator is the header, the step blocks in input
order, then the footer. -/
theorem simpleGenerate_eq_blocks (scenario : TestScenario) (options : CompileOptions) :
    SimpleApi.generatePlaywrightTest scenario options =
      testHeader scenario.name ++
        concatBlocks (blockWithSep (SimpleApi.stepCode options) scenario.steps.length)
          scenario.steps.enum ++ testFooter := by
  unfold SimpleApi.generatePlaywrightTest
  rw [foldl_append_concatBlocks]

/-- The combined API's generator is the header, the step blocks in input
order, then the footer. -/
theorem combinedGenerate_eq_blocks (scenario : TestScenario) (options : CompileOptions) :
    CombinedApi.generatePlaywrightTest scenario options =
      testHeader scenario.name ++
        concatBlocks (blockWithSep (CombinedApi.stepCode options) scenario.steps.length)
          scenario.steps.enum ++ testFooter := by
  unfold CombinedApi.generatePlaywrightTest
  rw [foldl_append_concatBlocks]

/-- Collapsing whitespace runs over a list of alphanumeric-or-whitespace
characters yields alphanumeric characters and single spaces only. -/
theorem mem_collapseWsAux {cs : List Char}
    (hcs : ∀ c ∈ cs, (isAsciiAlphanum c || jsWhitespace c) = true) :
    ∀ (b : Bool), ∀ c ∈ collapseWsAux b cs, (isAsciiAlphanum c || (c == ' ')) = true := by
  induction cs with
  | nil => intro b c hc; simp [collapseWsAux] at hc
  | cons a rest ih =>
    intro b c hc
    have ha := hcs a (List.mem_cons_self a rest)
    have hrest : ∀ c ∈ rest, (isAsciiAlphanum c || jsWhitespace c) = true :=
      fun c hc => hcs c (List.mem_cons_of_mem a hc)
    by_cases hw : jsWhitespace a = true
    · simp only [collapseWsAux, hw, if_true] at hc
      cases b with
      | true => exact ih hrest true c hc
      | false =>
        rcases List.mem_cons.mp hc with h | h
        · subst h; simp
        · exact ih hrest true c h
    · simp only [collapseWsAux, Bool.not_eq_true] at hw
      simp only [collapseWsAux, hw, Bool.false_eq_true, if_false] at hc
      rcases List.mem_cons.mp hc with h | h
      · subst h
        have := ha
        simp only [hw, Bool.or_false] at this
        simp [this]
      · exact ih hrest false c h

/-- Every character of a sanitised test title is an ASCII letter, a digit,
or a single space: in particular no quote character survives. -/
theorem sanitizeName_chars (s : String) :
    ∀ c ∈ (sanitizeName s).data, (isAsciiAlphanum c || (c == ' ')) = true := by
  intro c hc
  unfold sanitizeName at hc
  refine mem_collapseWsAux (fun c hc => ?_) false c hc
  exact (List.mem_filter.mp hc).2

/-! ## Claims -/

/-- C10: for every scenario (zero steps included) and options, both code
generators' output starts with the `@playwright/test` import line followed
by a `test('...')` header whose title is the scenario name sanitised by
`name.replace(/[^a-zA-Z0-9\s]/g, '').replace(/\s+/g, ' ')` — so the title
consists of ASCII letters, digits and single spaces only, and in
particular no quote character can terminate the emitted title literal —
and the output ends with the closing line of the test callback. -/
theorem generated_file_shape (scenario : TestScenario) (options : CompileOptions) :
    (∃ body, CombinedApi.generatePlaywrightTest scenario options =
      "import \x7b test, expect \x7d from '@playwright/test';\n\n" ++
        "test('" ++ sanitizeName scenario.name ++ "', async (\x7b page \x7d) => \x7b\n" ++
        body ++ "\x7d);\n") ∧
    (∃ body, SimpleApi.generatePlaywrightTest scenario options =
      "import \x7b test, expect \x7d from '@playwright/test';\n\n" ++
        "test('" ++ sanitizeName scenario.name ++ "', async (\x7b page \x7d) => \x7b\n" ++
        body ++ "\x7d);\n") ∧
    (∀ c ∈ (sanitizeName scenario.name).data, (isAsciiAlphanum c || (c == ' ')) = true) := by
  refine ⟨⟨concatBlocks (blockWithSep (CombinedApi.stepCode options) scenario.steps.length)
      scenario.steps.enum, ?_⟩,
    ⟨concatBlocks (blockWithSep (SimpleApi.stepCode options) scenario.steps.length)
      scenario.steps.enum, ?_⟩,
    sanitizeName_chars scenario.name⟩
  · rw [combinedGenerate_eq_blocks]
    simp only [testHeader, testFooter, String.append_assoc]
  · rw [simpleGenerate_eq_blocks]
    simp only [testHeader, testFooter, String.append_assoc]

/-- C7: the compile handler's artifacts — the generated source text in
particular — depend only on the scenario and options; the clock reading,
the handler's one ambient input, does not reach them, so two invocations
with identical arguments yield byte-identical source text. -/
theorem compile_artifacts_deterministic (scenario : TestScenario)
    (options : CompileOptions) (now1 now2 : Nat) :
    (compileEndpoint scenario options now1).artifacts =
      (compileEndpoint scenario options now2).artifacts ∧
    (compileEndpoint scenario options now1).artifacts.ts =
      SimpleApi.generatePlaywrightTest scenario options :=
  ⟨rfl, rfl⟩

/-- C8: the four-step round-trip scenario compiled with the `css`
selector strategy contains, in order, the navigation to `https://x.test`,
the raw-selector click on `#login`, the fill of `#user` with `bob`, and
the visibility assertion on `#welcome`. -/
theorem roundTrip_css_statements_in_order :
    appearsInOrderCL (SimpleApi.generatePlaywrightTest roundTripScenario cssOptions).data
      ["await page.goto('https://x.test');",
       "await page.locator('#login').click();",
       "await page.locator('#user').fill('bob');",
       "await expect(page.locator('#welcome')).toBeVisible();"] = true := by
  decide

/-- A repaired step keeps the input step's `action` and `data`: every
branch of `executeStepWithMCP` returns the spread `{...step, target,
description}` or the original step. -/
theorem executeStepWithMCP_action_data (env : Nat → CallOutcome) (k : Nat)
    (url : String) (isFirstStep : Bool) (step : TestStep) :
    (executeStepWithMCP env k url isFirstStep step).1.action = step.action ∧
    (executeStepWithMCP env k url isFirstStep step).1.data = step.data := by
  unfold executeStepWithMCP
  repeat' split
  all_goals simp

/-- Unfolding equation for the step loop on a nonempty list. -/
theorem executeStepsWithMCP_cons (env : Nat → CallOutcome) (url : String)
    (k i : Nat) (step : TestStep) (rest : List TestStep) :
    executeStepsWithMCP env url k i (step :: rest) =
      ((executeStepWithMCP env k url (i == 0) step).1 ::
        (executeStepsWithMCP env url (executeStepWithMCP env k url (i == 0) step).2
          (i + 1) rest).1,
       (executeStepsWithMCP env url (executeStepWithMCP env k url (i == 0) step).2
         (i + 1) rest).2) := by
  cases h : executeStepWithMCP env k url (i == 0) step with
  | mk s k1 =>
    cases h2 : executeStepsWithMCP env url k1 (i + 1) rest with
    | mk ss k2 => simp [executeStepsWithMCP, h, h2]

/-- The step loop returns one output step per input step, in order, each
related to its input by preservation of `action` and `data`. -/
theorem executeStepsWithMCP_forall₂ (env : Nat → CallOutcome) (url : String) :
    ∀ (steps : List TestStep) (k i : Nat),
      List.Forall₂ (fun o s => o.action = s.action ∧ o.data = s.data)
        (executeStepsWithMCP env url k i steps).1 steps
  | [], _, _ => by simp [executeStepsWithMCP]
  | step :: rest, k, i => by
    rw [executeStepsWithMCP_cons]
    exact List.Forall₂.cons (executeStepWithMCP_action_data env k url (i == 0) step)
      (executeStepsWithMCP_forall₂ env url rest
        (executeStepWithMCP env k url (i == 0) step).2 (i + 1))

/-- C9: step order is preserved end-to-end.  The repair loop returns
exactly one output step per input step, in the same order, with each
output step's `action` and `data` equal to the input step's (only
`target` and `description` are rewritten); and the code generator's
output is the header followed by the per-step statement blocks in input
step order, then the footer. -/
theorem step_order_preserved_end_to_end (env : Nat → CallOutcome) (url : String)
    (scenario : TestScenario) (options : CompileOptions) (i : Nat)
    (h : i < scenario.steps.length) :
    (executeScenarioWithMCP env url scenario.steps).length = scenario.steps.length ∧
    (∀ h2 : i < (executeScenarioWithMCP env url scenario.steps).length,
      ((executeScenarioWithMCP env url scenario.steps).get ⟨i, h2⟩).action =
        (scenario.steps.get ⟨i, h⟩).action ∧
      ((executeScenarioWithMCP env url scenario.steps).get ⟨i, h2⟩).data =
        (scenario.steps.get ⟨i, h⟩).data) ∧
    CombinedApi.generatePlaywrightTest scenario options =
      testHeader scenario.name ++
        concatBlocks (blockWithSep (CombinedApi.stepCode options) scenario.steps.length)
          scenario.steps.enum ++ testFooter := by
  have hf := executeStepsWithMCP_forall₂ env url scenario.steps 0 0
  rcases List.forall₂_iff_get.mp hf with ⟨hlen, hget⟩
  exact ⟨hlen, fun h2 => hget i h2 h, combinedGenerate_eq_blocks scenario options⟩

/-- Witness for C9 at the round-trip scenario, index 2, under a backend
that always offers an improvement. -/
theorem step_order_preserved_end_to_end_witness :
    (executeScenarioWithMCP allImproveEnv "https://x.test" roundTripScenario.steps).length =
        roundTripScenario.steps.length ∧
    (∀ h2 : 2 <
        (executeScenarioWithMCP allImproveEnv "https://x.test" roundTripScenario.steps).length,
      ((executeScenarioWithMCP allImproveEnv "https://x.test" roundTripScenario.steps).get
          ⟨2, h2⟩).action =
        (roundTripScenario.steps.get ⟨2, by decide⟩).action ∧
      ((executeScenarioWithMCP allImproveEnv "https://x.test" roundTripScenario.steps).get
          ⟨2, h2⟩).data =
        (roundTripScenario.steps.get ⟨2, by decide⟩).data) ∧
    CombinedApi.generatePlaywrightTest roundTripScenario cssOptions =
      testHeader roundTripScenario.name ++
        concatBlocks (blockWithSep (CombinedApi.stepCode cssOptions)
          roundTripScenario.steps.length) roundTripScenario.steps.enum ++ testFooter :=
  step_order_preserved_end_to_end allImproveEnv "https://x.test" roundTripScenario
    cssOptions 2 (by decide)

/-- C1: `validateSelectorsWithMCP` is total — every scenario-level or
step-level exception is caught inside it, which is why its embedding is a
plain function — and for every input list (the empty list included) it
returns exactly one output scenario per input scenario, in the same order:
the scenario at each index keeps its `id` and `name` and has one repaired
step per original step. -/
theorem repair_returns_same_count_same_order (envs : Nat → Nat → CallOutcome)
    (times : Nat → String) (url : String) (scenarios : List TestScenario) :
    (validateSelectorsWithMCP envs times url scenarios).length = scenarios.length ∧
    ∀ (i : Nat) (h : i < scenarios.length)
      (h2 : i < (validateSelectorsWithMCP envs times url scenarios).length),
      ((validateSelectorsWithMCP envs times url scenarios).get ⟨i, h2⟩).id =
          (scenarios.get ⟨i, h⟩).id ∧
      ((validateSelectorsWithMCP envs times url scenarios).get ⟨i, h2⟩).name =
          (scenarios.get ⟨i, h⟩).name ∧
      ((validateSelectorsWithMCP envs times url scenarios).get ⟨i, h2⟩).steps.length =
          (scenarios.get ⟨i, h⟩).steps.length := by
  constructor
  · exact List.length_mapIdx
  · intro i h h2
    unfold validateSelectorsWithMCP
    rw [List.get_mapIdx _ _ _ h]
    refine ⟨rfl, rfl, ?_⟩
    exact (executeStepsWithMCP_forall₂ (envs i) url (scenarios.get ⟨i, h⟩).steps 0 0).length_eq

/-- Witness for C1 at a one-scenario list under an always-improving
backend, index 0. -/
theorem repair_returns_same_count_same_order_witness :
    (validateSelectorsWithMCP (fun _ => allImproveEnv) (fun _ => "7ms") "https://x.test"
        [roundTripScenario]).length = [roundTripScenario].length ∧
    ((validateSelectorsWithMCP (fun _ => allImproveEnv) (fun _ => "7ms") "https://x.test"
        [roundTripScenario]).get ⟨0, by decide⟩).id =
      ([roundTripScenario].get ⟨0, by decide⟩).id ∧
    ((validateSelectorsWithMCP (fun _ => allImproveEnv) (fun _ => "7ms") "https://x.test"
        [roundTripScenario]).get ⟨0, by decide⟩).name =
      ([roundTripScenario].get ⟨0, by decide⟩).name ∧
    ((validateSelectorsWithMCP (fun _ => allImproveEnv) (fun _ => "7ms") "https://x.test"
        [roundTripScenario]).get ⟨0, by decide⟩).steps.length =
      ([roundTripScenario].get ⟨0, by decide⟩).steps.length :=
  ⟨(repair_returns_same_count_same_order (fun _ => allImproveEnv) (fun _ => "7ms")
      "https://x.test" [roundTripScenario]).1,
   (repair_returns_same_count_same_order (fun _ => allImproveEnv) (fun _ => "7ms")
      "https://x.test" [roundTripScenario]).2 0 (by decide) (by decide)⟩

/-- C2 counterexample: for the `fill` step whose validation call succeeds
with an improvement and whose execution call then reports failure, the
output step keeps the improved target — the code resets only the
description (part_001:290-294) — so the output `target` differs from the
input `target` even though `executeStep` reported failure. -/
theorem improved_target_kept_on_execution_failure :
    (executeStepWithMCP improveThenFailEnv 0 "https://x.test" false fillStep).1.target =
        "[data-testid=user]" ∧
    (executeStepWithMCP improveThenFailEnv 0 "https://x.test" false fillStep).1.target ≠
        fillStep.target ∧
    (executeStepWithMCP improveThenFailEnv 0 "https://x.test" false fillStep).1.description =
        fillStep.description := by
  decide

/-- C2 as amended: for a `click`/`fill`/`expect` step, (1) when the
validation call yields no adopted improvement (it throws, reports failure,
or offers no truthy selector) and the execution call fails or throws, the
step is returned with its original `target` and `description` untouched;
(2) when an improvement was adopted and execution then reports failure,
only the `description` falls back and the improved `target` is kept; and
(3) processing always continues: the step loop never drops nor stops at a
failing step, siblings of the same scenario being repaired independently
of it. -/
theorem step_fallback_on_failures (env : Nat → CallOutcome) (k : Nat) (url : String)
    (isFirstStep : Bool) (step : TestStep)
    (ha : step.action = "click" ∨ step.action = "fill" ∨ step.action = "expect") :
    ((∀ v, env k = .ok v → adoptsImprovement v = false) →
      (∀ e, env (k + 1) = .ok e → e.success = false) →
      (executeStepWithMCP env k url isFirstStep step).1 = step) ∧
    (∀ v e, env k = .ok v → adoptsImprovement v = true → env (k + 1) = .ok e →
      e.success = false →
      (executeStepWithMCP env k url isFirstStep step).1 =
        { step with target := v.improvedSelector.getD step.target }) ∧
    (∀ (steps : List TestStep) (k0 i0 : Nat),
      (executeStepsWithMCP env url k0 i0 steps).1.length = steps.length) := by
  have hgoto : (isFirstStep && step.action == "goto") = false := by
    rcases ha with h | h | h <;> simp [h]
  have hcfe : (step.action == "click" || step.action == "fill" ||
      step.action == "expect") = true := by
    rcases ha with h | h | h <;> simp [h]
  refine ⟨?_, ?_, ?_⟩
  · intro hv he
    unfold executeStepWithMCP
    rw [hgoto, hcfe]
    simp only [Bool.false_eq_true, if_false, if_true]
    cases hk : env k with
    | thrown m => rfl
    | ok v =>
      have hv2 := hv v hk
      unfold adoptsImprovement at hv2
      cases he2 : env (k + 1) with
      | thrown m => simp [hv2]
      | ok e =>
        have he3 := he e he2
        simp [hv2, he3]
  · intro v e hk hadopt hke hes
    unfold adoptsImprovement at hadopt
    unfold executeStepWithMCP
    rw [hgoto, hcfe]
    simp only [Bool.false_eq_true, if_false, if_true]
    rw [hk, hke]
    simp [hadopt, hes]
  · intro steps k0 i0
    exact (executeStepsWithMCP_forall₂ env url steps k0 i0).length_eq

/-- Witness for C2's amended statement: all three parts at concrete
backends — an all-failing backend leaves the `fill` step untouched, the
improve-then-fail backend keeps the improved target, and the step loop
preserves the round-trip scenario's step count. -/
theorem step_fallback_on_failures_witness :
    (executeStepWithMCP allFailEnv 0 "https://x.test" false fillStep).1 = fillStep ∧
    (executeStepWithMCP improveThenFailEnv 0 "https://x.test" false fillStep).1 =
      { fillStep with target := "[data-testid=user]" } ∧
    (executeStepsWithMCP allFailEnv "https://x.test" 0 0 roundTripScenario.steps).1.length =
      roundTripScenario.steps.length :=
  ⟨(step_fallback_on_failures allFailEnv 0 "https://x.test" false fillStep
      (Or.inr (Or.inl rfl))).1
      (fun v hv => by cases hv; decide) (fun e he => by cases he; decide),
   (step_fallback_on_failures improveThenFailEnv 0 "https://x.test" false fillStep
      (Or.inr (Or.inl rfl))).2.1
      { success := true, improvedSelector := some "[data-testid=user]",
        error := none, executionTime := some 5 }
      { success := false, improvedSelector := none,
        error := some "element not found", executionTime := none }
      rfl (by decide) rfl rfl,
   (step_fallback_on_failures allFailEnv 0 "https://x.test" false fillStep
      (Or.inr (Or.inl rfl))).2.2 roundTripScenario.steps 0 0⟩

/-- C3 counterexample: a well-formed reply whose `scenarios` JSON array
contains a step with action `navigate` (exactly what the combined API's
own mock Gemini reply contains) is converted with its action passed
through unvalidated: the returned list has a step whose action is not in
the recognised set. -/
theorem unrecognized_action_passes_through :
    generateGeminiScenarios (okFetch "reply") navigateParse =
      .ok [{ id := "scn_1", name := "Nav",
             steps := [{ action := "navigate", target := "https://example.com",
                         data := none, description := "Navigate to the website" }],
             timeTakenToCompile := none, tags := some ["generated"] }] ∧
    "navigate" ∉ recognizedActions :=
  ⟨rfl, by decide⟩

/-- The step list of a converted scenario. -/
theorem convertRawScenario_steps (i : Nat) (s : RawScenario) (L : List RawStep) :
    (convertRawScenario i s L).steps = L.mapIdx fun j st =>
      { action := jsOrStr st.action "click",
        target := jsOrStr st.target "#body",
        data := st.data,
        description := jsOrStr st.description ("Step " ++ toString (j + 1)) } := rfl

/-- C3 as amended: for every well-formed reply with a valid `scenarios`
array (each scenario carrying a `steps` array), `generate` returns a
scenario list of equal length whose steps are in pointwise, order-keeping
correspondence with the reply's steps, each output action being exactly
the supplied action with only `|| 'click'` defaulting applied — no
membership validation — and consequently every output action lies in the
recognised set if and only if every supplied action does after
defaulting. -/
theorem generate_equal_length_actions_passthrough
    (outcome : FetchOutcome) (parse : String → Except String ParsedScenarios)
    (text : String) (raw : List RawScenario)
    (hs : GeminiService.generateTestScenarios outcome = .ok text)
    (hp : parse text = .ok { scenarios := some raw })
    (hsteps : ∀ s ∈ raw, s.steps.isSome) :
    ∃ out, generateGeminiScenarios outcome parse = .ok out ∧
      out.length = raw.length ∧
      List.Forall₂ (fun scn s =>
        List.Forall₂ (fun st rst => st.action = jsOrStr rst.action "click")
          scn.steps (s.steps.getD [])) out raw ∧
      ((∀ scn ∈ out, ∀ st ∈ scn.steps, st.action ∈ recognizedActions) ↔
        (∀ s ∈ raw, ∀ rst ∈ s.steps.getD [],
          jsOrStr rst.action "click" ∈ recognizedActions)) := by
  have hall : raw.all (fun s => s.steps.isSome) = true := by
    rw [List.all_eq_true]
    intro s hsmem
    exact hsteps s hsmem
  have hf : List.Forall₂ (fun scn s =>
      List.Forall₂ (fun st rst => st.action = jsOrStr rst.action "click")
        scn.steps (s.steps.getD []))
      (raw.mapIdx fun i s => convertRawScenario i s (s.steps.getD [])) raw := by
    rw [List.forall₂_iff_get]
    refine ⟨List.length_mapIdx, fun i h1 h2 => ?_⟩
    rw [List.get_mapIdx _ _ _ h2, convertRawScenario_steps, List.forall₂_iff_get]
    refine ⟨List.length_mapIdx, fun j h3 h4 => ?_⟩
    rw [List.get_mapIdx _ _ _ h4]
  refine ⟨raw.mapIdx fun i s => convertRawScenario i s (s.steps.getD []), ?_,
    List.length_mapIdx, hf, ?_, ?_⟩
  · simp [generateGeminiScenarios, hs, hp, hall]
  · intro hout s hsmem rst hrst
    rcases List.mem_iff_get.mp hsmem with ⟨⟨i, hi⟩, hseq⟩
    have hi1 : i < (raw.mapIdx fun i s => convertRawScenario i s (s.steps.getD [])).length := by
      rw [List.length_mapIdx]; exact hi
    have hR := (List.forall₂_iff_get.mp hf).2 i hi1 hi
    rw [hseq] at hR
    rcases List.mem_iff_get.mp hrst with ⟨⟨j, hj⟩, hreq⟩
    have hj1 : j <
        ((raw.mapIdx fun i s => convertRawScenario i s (s.steps.getD [])).get
          ⟨i, hi1⟩).steps.length := by
      rw [hR.length_eq]; exact hj
    have hact := (List.forall₂_iff_get.mp hR).2 j hj1 hj
    rw [hreq] at hact
    rw [← hact]
    exact hout _ (List.get_mem _ _ _) _ (List.get_mem _ _ _)
  · intro hact scn hscn st hst
    rw [List.mapIdx_eq_enum_map] at hscn
    rcases List.mem_map.mp hscn with ⟨⟨i, s⟩, hmem, hconv⟩
    have hsraw : s ∈ raw := List.snd_mem_of_mem_enum hmem
    subst hconv
    simp only [Function.uncurry_apply_pair] at hst
    rw [convertRawScenario_steps, List.mapIdx_eq_enum_map] at hst
    rcases List.mem_map.mp hst with ⟨⟨j, rst⟩, hmem2, hconv2⟩
    have hrstraw : rst ∈ s.steps.getD [] := List.snd_mem_of_mem_enum hmem2
    subst hconv2
    exact hact s hsraw rst hrstraw

/-- Witness for C3's amended statement: a reply with a `goto` step and a
missing-action step (defaulted to `click`) yields one scenario, equal
length, the pointwise action passthrough, and the two-way recognition
correspondence. -/
theorem generate_equal_length_actions_passthrough_witness :
    ∃ out, generateGeminiScenarios (okFetch "reply") recognisedParse = .ok out ∧
      out.length = recognisedRaw.length ∧
      List.Forall₂ (fun scn s =>
        List.Forall₂ (fun st rst => st.action = jsOrStr rst.action "click")
          scn.steps (s.steps.getD [])) out recognisedRaw ∧
      ((∀ scn ∈ out, ∀ st ∈ scn.steps, st.action ∈ recognizedActions) ↔
        (∀ s ∈ recognisedRaw, ∀ rst ∈ s.steps.getD [],
          jsOrStr rst.action "click" ∈ recognizedActions)) :=
  generate_equal_length_actions_passthrough (okFetch "reply") recognisedParse "reply"
    recognisedRaw rfl rfl (by decide)

/-- C4 counterexample: for a connected session whose backend reply text is
the parseable JSON `{"valid": true}` carrying no `improvedSelector`, the
result still carries an improved selector — the input selector echoed back
(`parsed.improvedSelector || selector`, mcp-client.ts:110) — rather than
carrying none. -/
theorem improvedSelector_echoed_without_backend_improvement :
    noImprovementJsonParse "\x7b\"valid\": true\x7d" =
      some { improvedSelector := none, executionTime := none } ∧
    (MCPClient.validateSelector noImprovementJsonParse true "#login"
        (.reply [.text "\x7b\"valid\": true\x7d"])).improvedSelector = some "#login" :=
  ⟨rfl, rfl⟩

/-- C4 as amended: on any non-thrown reply of a connected session,
`validateSelector` reports success and always carries some
`improvedSelector`: the backend's offer when the reply text is parseable
JSON with a truthy `improvedSelector`, the input selector echoed back when
the parsed JSON offers none (and when the content is missing or not
text), and the raw reply text verbatim when the text is not parseable
JSON. -/
theorem validateSelector_always_carries_selector
    (jsonParse : String → Option ParsedSelectorReply) (selector : String)
    (content : List ToolContent) :
    (MCPClient.validateSelector jsonParse true selector (.reply content)).success = true ∧
    ((MCPClient.validateSelector jsonParse true selector
        (.reply content)).improvedSelector).isSome = true ∧
    (∀ t, content.head? = some (.text t) → jsonParse t = none →
      (MCPClient.validateSelector jsonParse true selector
        (.reply content)).improvedSelector = some t) ∧
    (∀ t p, content.head? = some (.text t) → jsonParse t = some p →
      (MCPClient.validateSelector jsonParse true selector
        (.reply content)).improvedSelector = some (jsOrStr p.improvedSelector selector)) := by
  rcases hc : content.head? with _ | c
  · simp [MCPClient.validateSelector, hc]
  · cases c with
    | text t =>
      rcases hp : jsonParse t with _ | p
      · refine ⟨by simp [MCPClient.validateSelector, hc, hp],
          by simp [MCPClient.validateSelector, hc, hp],
          fun t1 h1 h2 => ?_, fun t1 p1 h1 h2 => ?_⟩
        · cases h1
          simp [MCPClient.validateSelector, hc, hp]
        · cases h1
          rw [hp] at h2
          cases h2
      · refine ⟨by simp [MCPClient.validateSelector, hc, hp],
          by simp [MCPClient.validateSelector, hc, hp],
          fun t1 h1 h2 => ?_, fun t1 p1 h1 h2 => ?_⟩
        · cases h1
          rw [hp] at h2
          cases h2
        · cases h1
          rw [hp] at h2
          cases h2
          simp [MCPClient.validateSelector, hc, hp]
    | other => simp [MCPClient.validateSelector, hc]

/-- Witness for C4's amended statement: an unparseable reply text is
returned verbatim as the improved selector. -/
theorem validateSelector_always_carries_selector_witness :
    (MCPClient.validateSelector neverParses true "#a"
        (.reply [.text "#login-improved"])).success = true ∧
    ((MCPClient.validateSelector neverParses true "#a"
        (.reply [.text "#login-improved"])).improvedSelector).isSome = true ∧
    (MCPClient.validateSelector neverParses true "#a"
        (.reply [.text "#login-improved"])).improvedSelector = some "#login-improved" :=
  ⟨(validateSelector_always_carries_selector neverParses "#a" [.text "#login-improved"]).1,
   (validateSelector_always_carries_selector neverParses "#a" [.text "#login-improved"]).2.1,
   (validateSelector_always_carries_selector neverParses "#a" [.text "#login-improved"]).2.2.1
     "#login-improved" rfl rfl⟩

/-- C5 counterexample: on a transport-level fetch rejection the service
layer does throw, but `generateGeminiScenarios` — the `generate` stage
whose caller the claim speaks of — catches it and returns the empty
scenario list as a value; nothing propagates. -/
theorem transport_failure_swallowed_by_generate :
    GeminiService.generateTestScenarios (.reject "fetch failed: ECONNREFUSED") =
      .error "fetch failed: ECONNREFUSED" ∧
    generateGeminiScenarios (.reject "fetch failed: ECONNREFUSED") recognisedParse =
      .ok [] :=
  ⟨rfl, rfl⟩

/-- C5 as amended: transport failures (a rejected fetch or a non-ok HTTP
response) propagate as errors from `GeminiService.generateTestScenarios`
only; `generateGeminiScenarios` catches every error kind — transport
included, alongside parse failures — and recovers it as the empty
scenario list, so no error of the generation stage ever reaches its
caller. -/
theorem generate_recovers_every_error (parse : String → Except String ParsedScenarios) :
    (∀ m, GeminiService.generateTestScenarios (.reject m) = .error m ∧
      generateGeminiScenarios (.reject m) parse = .ok []) ∧
    (∀ statusMsg body,
      GeminiService.generateTestScenarios (.resp false statusMsg body) =
        .error ("Gemini API error: " ++ statusMsg) ∧
      generateGeminiScenarios (.resp false statusMsg body) parse = .ok []) ∧
    (∀ outcome, ∃ out, generateGeminiScenarios outcome parse = .ok out) := by
  refine ⟨fun m => ⟨rfl, rfl⟩, fun statusMsg body => ⟨rfl, rfl⟩, fun outcome => ?_⟩
  cases hs : GeminiService.generateTestScenarios outcome with
  | error m => exact ⟨[], by simp [generateGeminiScenarios, hs]⟩
  | ok text =>
    cases hp : parse text with
    | error e => exact ⟨[], by simp [generateGeminiScenarios, hs, hp]⟩
    | ok p =>
      cases hsc : p.scenarios with
      | none => exact ⟨[], by simp [generateGeminiScenarios, hs, hp, hsc]⟩
      | some raw =>
        by_cases hall : raw.all (fun s => s.steps.isSome) = true
        · exact ⟨raw.mapIdx fun i s => convertRawScenario i s (s.steps.getD []),
            by simp [generateGeminiScenarios, hs, hp, hsc, hall]⟩
        · exact ⟨[], by simp [generateGeminiScenarios, hs, hp, hsc, hall]⟩

/-- C6 counterexample: the combined API's generator (part_002:142-145)
emits no call statement for an unrecognised action — its default case
writes two comment lines only, so the emitted file for a one-`hover`-step
scenario contains no `await` at all, in particular no generic call
carrying the action name. -/
theorem combined_generator_unknown_action_emits_no_call :
    CombinedApi.stepCode cssOptions hoverStep =
      "  // Unknown action: hover\n  // hover over the menu\n" ∧
    containsCL ".hover()".data
      (CombinedApi.generatePlaywrightTest hoverScenario cssOptions).data = false ∧
    containsCL "await".data
      (CombinedApi.generatePlaywrightTest hoverScenario cssOptions).data = false := by
  refine ⟨rfl, by decide, by decide⟩

/-- C6 as amended: for a step whose action is outside the handled kinds,
the simple API's generator emits a comment carrying the action name and
the original description followed by a best-effort generic call carrying
the action name, while the combined API's generator emits only an
unknown-action comment and a comment carrying the original description,
with no call statement; neither generator throws on well-formed scenarios
(both embeddings are total functions). -/
theorem unknown_action_block_shapes (options : CompileOptions) (step : TestStep)
    (h : step.action ∉ ["goto", "click", "fill", "type", "expect", "wait"]) :
    SimpleApi.stepCode options step =
      "  // " ++ step.action ++ ": " ++ step.description ++
        "\n  await page.locator('" ++ step.target ++ "')." ++ step.action ++ "();\n" ∧
    CombinedApi.stepCode options step =
      "  // Unknown action: " ++ step.action ++ "\n  // " ++ step.description ++ "\n" := by
  obtain ⟨h1, h2, h3, h4, h5, h6⟩ :
      step.action ≠ "goto" ∧ step.action ≠ "click" ∧ step.action ≠ "fill" ∧
      step.action ≠ "type" ∧ step.action ≠ "expect" ∧ step.action ≠ "wait" := by
    simpa using h
  constructor
  · simp [SimpleApi.stepCode, h1, h2, h3, h4, h5, h6, String.append_assoc]
  · simp [CombinedApi.stepCode, h1, h2, h3, h4, h5, h6, String.append_assoc]

/-- Witness for C6's amended statement at the `hover` step. -/
theorem unknown_action_block_shapes_witness :
    SimpleApi.stepCode cssOptions hoverStep =
      "  // " ++ hoverStep.action ++ ": " ++ hoverStep.description ++
        "\n  await page.locator('" ++ hoverStep.target ++ "')." ++ hoverStep.action ++
        "();\n" ∧
    CombinedApi.stepCode cssOptions hoverStep =
      "  // Unknown action: " ++ hoverStep.action ++ "\n  // " ++
        hoverStep.description ++ "\n" :=
  unknown_action_block_shapes cssOptions hoverStep (by decide)
